import Mathlib

/-!
Verification development for the Lucid Sandbox Agent repository: a shallow
embedding of the sandbox executor (src/lib/sandbox.ts), its tier policy and
configuration (src/lib/config.ts), the execute endpoint with its request
validation (src/routes/execute.ts), and the route wiring of the HTTP server
(src/index.ts).  Machine integers are modelled as Int/Nat, JavaScript
strings as String, fallible steps of the isolation engine as an explicit
outcome oracle, and the ambient clock (Date.now) as an explicit parameter.
-/

namespace LucidSandbox

/-- Supported languages of the execution request (sandbox.ts, ExecutionRequest). -/
inductive Language where
  | javascript
  | python
deriving DecidableEq, Repr

/-- The string form of a language, as it appears in request bodies and error
messages. -/
def Language.name : Language → String
  | .javascript => "javascript"
  | .python => "python"

/-- Service tiers (sandbox.ts, ExecutionRequest / TIER_LIMITS). -/
inductive Tier where
  | basic
  | standard
  | premium
deriving DecidableEq, Repr

/-- The string form of a tier, as it appears in request bodies. -/
def Tier.name : Tier → String
  | .basic => "basic"
  | .standard => "standard"
  | .premium => "premium"

/-- Position of a tier in the declared order basic < standard < premium. -/
def Tier.idx : Tier → Nat
  | .basic => 0
  | .standard => 1
  | .premium => 2

/-- Per-tier execution limits (sandbox.ts, TIER_LIMITS): timeout in
milliseconds, memory in MB, feature allowlist. -/
structure TierLimit where
  timeout : Int
  memory : Nat
  features : List String
deriving DecidableEq, Repr

/-- The TIER_LIMITS table of sandbox.ts. -/
def TIER_LIMITS : Tier → TierLimit
  | .basic => ⟨10000, 64, ["console.log"]⟩
  | .standard => ⟨30000, 128, ["console.log", "Math", "Date"]⟩
  | .premium => ⟨60000, 256, ["console.log", "Math", "Date", "JSON"]⟩

/-- The PRICING table of config.ts with its default values (0.01, 0.02 and
0.05 USDC), expressed in USDC base units (1 USDC = 10^6 base units), the
integer representation the x402 payment requirement uses for
maxAmountRequired.  Integer base units avoid floating point while preserving
the ordering and equality of the configured prices. -/
def PRICING : Tier → Nat
  | .basic => 10000
  | .standard => 20000
  | .premium => 50000

/-- CONFIG.wallets.base of config.ts (default value): the configured payee
address. -/
def WALLET_BASE : String := "0x11c24Fbcd702cd611729F8402d8fB51ECa75Ba83"

/-- CONFIG.network.usdcAddress of config.ts (default value). -/
def USDC_ADDRESS : String := "0x833589fCD6eDb6E08f4c7C32D4f71b54bdA02913"

/-- CONFIG.network.name of config.ts. -/
def NETWORK_NAME : String := "base"

/-- CONFIG.sandbox.allowedLanguages of config.ts with its default value
('javascript,python').split(','). -/
def ALLOWED_LANGUAGES : List Language := [.javascript, .python]

/-- Boolean test that the pattern list occurs at the head of the text list. -/
def startsWithChars : List Char → List Char → Bool
  | [], _ => true
  | _ :: _, [] => false
  | p :: ps, c :: cs => p == c && startsWithChars ps cs

/-- Boolean test that the pattern list occurs somewhere inside the text
list. -/
def containsChars (pat : List Char) : List Char → Bool
  | [] => startsWithChars pat []
  | c :: cs => startsWithChars pat (c :: cs) || containsChars pat cs

/-- JavaScript String.prototype.includes: substring containment. -/
def strContains (s pat : String) : Bool := containsChars pat.data s.data

/-- JavaScript truthiness fallback `x || fallback` on a possibly absent
number: undefined and 0 are falsy, every other integer is truthy (sandbox.ts
line 91, `request.timeout || tierLimits.timeout`). -/
def jsNumOr (x : Option Int) (fallback : Int) : Int :=
  match x with
  | none => fallback
  | some v => if v = 0 then fallback else v

/-- The effective timeout of sandbox.ts lines 90-93:
Math.min(request.timeout || tierLimits.timeout, tierLimits.timeout). -/
def effectiveTimeout (callerTimeout : Option Int) (tier : Tier) : Int :=
  min (jsNumOr callerTimeout (TIER_LIMITS tier).timeout) (TIER_LIMITS tier).timeout

/-- An execution request (sandbox.ts, ExecutionRequest): code, language,
tier, optional caller-supplied timeout in milliseconds. -/
structure ExecutionRequest where
  code : String
  language : Language
  tier : Tier
  timeout : Option Int
deriving DecidableEq, Repr

/-- An execution result (sandbox.ts, ExecutionResult).  The optional error
field is the surfaced error message; tier echoes the request's tier. -/
structure ExecutionResult where
  success : Bool
  output : String
  error : Option String
  executionTime : Int
  memoryUsed : Nat
  proof : String
  executionId : String
  tier : Tier
deriving DecidableEq, Repr

/-- The data hashed by generateProof (sandbox.ts lines 227-236): the caller
passes code with either output (success path, line 106-111) or error
(failure path, line 127-132), plus executionTime and executionId. -/
structure ProofData where
  code : String
  output : Option String
  error : Option String
  executionTime : Int
  executionId : String
deriving DecidableEq, Repr

/-- JSON string escaping of one character (backslash and double quote). -/
def escChar (c : Char) : List Char :=
  if c = '\\' then ['\\', '\\']
  else if c = '\"' then ['\\', '\"'] else [c]

/-- A JSON string literal for s. -/
def jsonStr (s : String) : String :=
  "\"" ++ String.mk (s.data.flatMap escChar) ++ "\""

/-- The serialized proof payload of sandbox.ts lines 228-233:
JSON.stringify of the data fields in insertion order, followed by the
timestamp (Date.now(), passed explicitly here), the network name and the
executor wallet address. -/
def serializeProofData (d : ProofData) (timestamp : Int) : String :=
  "\x7b\"code\":" ++ jsonStr d.code
    ++ (match d.output with
        | some o => ",\"output\":" ++ jsonStr o
        | none => "")
    ++ (match d.error with
        | some e => ",\"error\":" ++ jsonStr e
        | none => "")
    ++ ",\"executionTime\":" ++ toString d.executionTime
    ++ ",\"executionId\":" ++ jsonStr d.executionId
    ++ ",\"timestamp\":" ++ toString timestamp
    ++ ",\"network\":" ++ jsonStr NETWORK_NAME
    ++ ",\"executor\":" ++ jsonStr WALLET_BASE
    ++ "\x7d"

/-- The digest function.  createHash('sha256')...digest('hex') is a
deterministic function of the serialized payload; it is modelled as an
injective (collision-free) encoding of its input, the idealization the spec
itself adopts ("no collisions for distinct inputs in practice").  Every
claim settled here uses only determinism and injectivity of this map. -/
def sha256Hex (s : String) : String := s

/-- generateProof of sandbox.ts lines 227-236, with Date.now() as an
explicit timestamp parameter. -/
def generateProof (d : ProofData) (timestamp : Int) : String :=
  sha256Hex (serializeProofData d timestamp)

/-- verifyProof of sandbox.ts lines 244-247: regenerate the proof from the
data (at the logical timestamp of the regeneration) and compare. -/
def verifyProof (proof : String) (d : ProofData) (timestamp : Int) : Bool :=
  proof == generateProof d timestamp

/-- Behavior of the isolated run inside executeJavaScript, as an oracle:
either the script completes with the captured log output and a final used
heap size, or some step inside the try block (context creation, compilation
or script.run) throws with a message.  The err case also records the
isolate's heap size at the moment of failure, which the code could read but
does not. -/
inductive JsOutcome where
  | ok (output : String) (usedHeap : Nat)
  | err (msg : String) (usedHeap : Nat)
deriving DecidableEq, Repr

/-- Final used heap size of the isolate for a run behavior. -/
def JsOutcome.finalHeap : JsOutcome → Nat
  | .ok _ h => h
  | .err _ h => h

/-- The error message of a run outcome, when it is an error. -/
def JsOutcome.errMsg : JsOutcome → Option String
  | .ok _ _ => none
  | .err m _ => some m

/-- What executeJavaScript returns or throws, plus whether the isolate it
created was disposed before returning control. -/
structure JsResult where
  outcome : JsOutcome
  isolateDisposed : Bool
deriving DecidableEq, Repr

/-- The structured timeout message of sandbox.ts line 209. -/
def timeoutMessage (timeout : Int) : String :=
  "Execution timeout: code ran longer than " ++ toString timeout ++ "ms"

/-- The structured memory message of sandbox.ts line 212. -/
def memoryMessage (memoryLimitMB : Nat) : String :=
  "Memory limit exceeded: maximum " ++ toString memoryLimitMB ++ "MB"

/-- executeJavaScript of sandbox.ts lines 155-217.  The isolate is created,
the run proceeds per the oracle; on success the heap statistic is read, the
isolate disposed and the trimmed output returned (lines 191-201); on any
throw inside the try block the isolate is disposed and the error rethrown,
remapped to a structured message when its text contains 'timeout' or
'memory' (lines 203-216) and passed through verbatim otherwise. -/
def executeJavaScript (timeout : Int) (memoryLimitMB : Nat)
    (run : JsOutcome) : JsResult :=
  match run with
  | .ok output usedHeap =>
      { outcome := .ok output.trim usedHeap, isolateDisposed := true }
  | .err msg usedHeap =>
      let surfaced :=
        if strContains msg "timeout" then timeoutMessage timeout
        else if strContains msg "memory" then memoryMessage memoryLimitMB
        else msg
      { outcome := .err surfaced usedHeap, isolateDisposed := true }

/-- Ambient inputs of one call to SandboxExecutor.execute: the nanoid(16)
execution identifier, the elapsed wall-clock time Date.now() - startTime at
the point the result is assembled, the Date.now() value read inside
generateProof, and the behavior of the isolated run. -/
structure ExecEnv where
  executionId : String
  elapsed : Int
  proofTime : Int
  run : JsOutcome
deriving DecidableEq, Repr

/-- The failure branch of execute (sandbox.ts lines 123-144): success false,
empty output, the error message with the JavaScript falsy fallback
'Unknown execution error' for an empty message, memoryUsed 0, and an error
proof over the raw message. -/
def failureResult (req : ExecutionRequest) (env : ExecEnv)
    (msg : String) : ExecutionResult :=
  { success := false
    output := ""
    error := some (if msg = "" then "Unknown execution error" else msg)
    executionTime := env.elapsed
    memoryUsed := 0
    proof := generateProof
      ⟨req.code, none, some msg, env.elapsed, env.executionId⟩ env.proofTime
    executionId := env.executionId
    tier := req.tier }

/-- SandboxExecutor.execute of sandbox.ts lines 72-145: validate the
language against the configured allowlist, reject non-JavaScript, clamp the
timeout to the tier ceiling, run the isolated execution, and assemble a
success result (lines 113-121) or catch any thrown error into a failure
result (lines 123-144).  Total by construction, mirroring the catch-all. -/
def execute (req : ExecutionRequest) (env : ExecEnv) : ExecutionResult :=
  if req.language ∉ ALLOWED_LANGUAGES then
    failureResult req env ("Language " ++ req.language.name ++ " not supported")
  else if req.language ≠ Language.javascript then
    failureResult req env "Python execution coming soon. Use JavaScript for now."
  else
    let tierLimits := TIER_LIMITS req.tier
    let timeout := effectiveTimeout req.timeout req.tier
    let jsRes := executeJavaScript timeout tierLimits.memory env.run
    match jsRes.outcome with
    | .ok output memoryUsed =>
        { success := true
          output := output
          error := none
          executionTime := env.elapsed
          memoryUsed := memoryUsed
          proof := generateProof
            ⟨req.code, some output, none, env.elapsed, env.executionId⟩
            env.proofTime
          executionId := env.executionId
          tier := req.tier }
    | .err msg _ => failureResult req env msg

/-- An untrusted JSON value in a request-body field, at the granularity the
validation distinguishes: a string, a number, or anything else. -/
inductive JsonVal where
  | str (s : String)
  | num (n : Int)
  | other
deriving DecidableEq, Repr

/-- The untrusted body of a POST /api/execute request: each declared field
either absent or some JSON value. -/
structure RawBody where
  code : Option JsonVal
  language : Option JsonVal
  tier : Option JsonVal
  timeout : Option JsonVal
deriving DecidableEq, Repr

/-- Parse a language enum string (execute.ts line 127, z.enum). -/
def parseLanguage (s : String) : Option Language :=
  if s = "javascript" then some .javascript
  else if s = "python" then some .python
  else none

/-- Parse a tier enum string (execute.ts line 128, z.enum). -/
def parseTier (s : String) : Option Tier :=
  if s = "basic" then some .basic
  else if s = "standard" then some .standard
  else if s = "premium" then some .premium
  else none

/-- A request-body field name. -/
inductive ReqField where
  | code
  | language
  | tier
  | timeout
deriving DecidableEq, Repr

/-- Issues of the code field of ExecuteRequestSchema (execute.ts line 126:
z.string().min(1, 'Code cannot be empty').max(10000, 'Code too large')). -/
def codeIssues (v : Option JsonVal) : List (ReqField × String) :=
  match v with
  | none => [(.code, "Required")]
  | some (.str s) =>
      (if s.length = 0 then [(.code, "Code cannot be empty")] else [])
        ++ (if 10000 < s.length then [(.code, "Code too large")] else [])
  | some _ => [(.code, "Expected string")]

/-- Issues of the language field (execute.ts line 127, z.enum). -/
def langIssues (v : Option JsonVal) : List (ReqField × String) :=
  match v with
  | none => [(.language, "Required")]
  | some (.str s) =>
      if (parseLanguage s).isSome then []
      else [(.language, "Invalid enum value")]
  | some _ => [(.language, "Expected string")]

/-- Issues of the tier field (execute.ts line 128, z.enum). -/
def tierIssues (v : Option JsonVal) : List (ReqField × String) :=
  match v with
  | none => [(.tier, "Required")]
  | some (.str s) =>
      if (parseTier s).isSome then []
      else [(.tier, "Invalid enum value")]
  | some _ => [(.tier, "Expected string")]

/-- Issues of the optional timeout field (execute.ts line 129,
z.number().optional()). -/
def timeoutIssues (v : Option JsonVal) : List (ReqField × String) :=
  match v with
  | none => []
  | some (.num _) => []
  | some _ => [(.timeout, "Expected number")]

/-- The issues ExecuteRequestSchema.safeParse collects (execute.ts lines
125-130): zod validates every field of the object and returns the issues of
all of them, in field order.  Each issue carries the violated field and a
message; the code messages are the configured ones, the rest are zod's
invalid-type / invalid-enum issues. -/
def validationIssues (b : RawBody) : List (ReqField × String) :=
  codeIssues b.code ++ langIssues b.language
    ++ tierIssues b.tier ++ timeoutIssues b.timeout

/-- The parsed request when ExecuteRequestSchema.safeParse succeeds:
validation.data of execute.ts line 151. -/
def parseExecuteRequest (b : RawBody) : Option ExecutionRequest :=
  match b.code, b.language, b.tier, b.timeout with
  | some (.str c), some (.str l), some (.str t), tmo =>
      if c.length = 0 ∨ 10000 < c.length then none
      else
        match parseLanguage l, parseTier t, tmo with
        | some lang, some tier, none =>
            some ⟨c, lang, tier, none⟩
        | some lang, some tier, some (.num n) =>
            some ⟨c, lang, tier, some n⟩
        | _, _, _ => none
  | _, _, _, _ => none

/-- Whether the code field violates its contract: present, a string,
non-empty, of at most 10,000 characters. -/
def codeViolated (v : Option JsonVal) : Bool :=
  match v with
  | some (.str s) => decide (s.length = 0) || decide (10000 < s.length)
  | _ => true

/-- Whether the language field violates its contract: present, a string,
a member of the declared enum. -/
def langViolated (v : Option JsonVal) : Bool :=
  match v with
  | some (.str s) => (parseLanguage s).isNone
  | _ => true

/-- Whether the tier field violates its contract: present, a string,
a member of the declared enum. -/
def tierViolated (v : Option JsonVal) : Bool :=
  match v with
  | some (.str s) => (parseTier s).isNone
  | _ => true

/-- Whether the timeout field violates its contract: absent, or a number. -/
def timeoutViolated (v : Option JsonVal) : Bool :=
  match v with
  | none => false
  | some (.num _) => false
  | some _ => true

/-- Whether a body field violates the declared request-body contract
(spec section 6): code a non-empty string of at most 10,000 characters,
language and tier members of their declared enums, timeout absent or a
number.  Stated independently of the validator, from the contract itself. -/
def fieldViolated (f : ReqField) (b : RawBody) : Bool :=
  match f with
  | .code => codeViolated b.code
  | .language => langViolated b.language
  | .tier => tierViolated b.tier
  | .timeout => timeoutViolated b.timeout

/-- The options object the server passes to requirePayment
(index.ts lines 395-398): the amount (here in USDC base units) and a
description. -/
structure X402Options where
  amount : Nat
  description : String
deriving DecidableEq, Repr

/-- The structured payment requirement of a 402 response (README:
maxAmountRequired in base units, payTo, asset, network, scheme). -/
structure PaymentChallenge where
  maxAmountRequired : Nat
  payTo : String
  asset : String
  network : String
  scheme : String
deriving DecidableEq, Repr

/-- Modelled from the spec: the x402 payment middleware
(src/middleware/x402.ts, whose source is not in the repository snapshot;
index.ts lines 393-400 is its call site).  Per spec section 4.6, a request
without payment evidence receives a ChallengeIssued response that "emits the
tier's price, payee address, asset, network, and scheme as a structured
payment requirement", and QUICKSTART.md documents a basic-tier request
being quoted maxAmountRequired 10000 (basic's price); the configured
options.amount — wired by the server to the standard price, "Default to
standard tier" — is the amount quoted when the body names no known tier. -/
def requirePaymentChallenge (opts : X402Options) (body : RawBody) :
    PaymentChallenge :=
  { maxAmountRequired :=
      match body.tier with
      | some (.str s) =>
          match parseTier s with
          | some t => PRICING t
          | none => opts.amount
      | _ => opts.amount
    payTo := WALLET_BASE
    asset := USDC_ADDRESS
    network := NETWORK_NAME
    scheme := "eip3009" }

/-- The options index.ts lines 395-398 passes to requirePayment:
amount CONFIG.pricing.standard (default to standard tier). -/
def executeRouteOptions : X402Options :=
  ⟨PRICING .standard, "Code execution in secure sandbox"⟩

/-- The response of a POST /api/execute request at the granularity the
claims need: a 402 payment-required challenge, a 400 validation error
carrying the issue list, a 200 execution result, or a 500 internal
error. -/
inductive ApiResponse where
  | paymentRequired (c : PaymentChallenge)
  | badRequest (issues : List (ReqField × String))
  | okResult (r : ExecutionResult)
  | internalError (msg : String)
deriving DecidableEq, Repr

/-- A request's outcome: the response together with whether the sandbox
executor was invoked at all. -/
structure ApiResult where
  response : ApiResponse
  sandboxExecuted : Bool
deriving DecidableEq, Repr

/-- The POST /api/execute pipeline (index.ts lines 393-400 composing the
requirePayment middleware with executeHandler of execute.ts lines 138-214):
without payment evidence the middleware answers 402 with the payment
challenge and the handler never runs; with payment evidence the handler
validates the body (400 with all issues on failure), checks the verified
flag the middleware attached (500 if absent), and only then invokes the
sandbox executor.  The middleware's verification/settlement path is
abstracted to the paymentVerified flag it attaches. -/
def postExecute (hasPaymentEvidence paymentVerified : Bool)
    (body : RawBody) (env : ExecEnv) : ApiResult :=
  if hasPaymentEvidence = false then
    ⟨.paymentRequired (requirePaymentChallenge executeRouteOptions body), false⟩
  else
    match parseExecuteRequest body with
    | none => ⟨.badRequest (validationIssues body), false⟩
    | some req =>
        if paymentVerified = false then
          ⟨.internalError "Payment verification state invalid", false⟩
        else
          ⟨.okResult (execute req env), true⟩

/-! Helper lemmas. -/

/-- A string append with a non-empty left part is non-empty. -/
theorem strAppendNeEmpty (a b : String) (h : a ≠ "") : a ++ b ≠ "" := by
  intro hab
  apply h
  have hd := congrArg String.data hab
  simp only [String.data_append] at hd
  rw [List.append_eq_nil] at hd
  cases a with
  | mk l => simp_all

/-- The serialized proof payload is never empty. -/
theorem serializeProofDataNeEmpty (d : ProofData) (t : Int) :
    serializeProofData d t ≠ "" := by
  simp only [serializeProofData]
  repeat apply strAppendNeEmpty
  decide

/-- A generated proof digest is never empty. -/
theorem generateProofNeEmpty (d : ProofData) (t : Int) :
    generateProof d t ≠ "" :=
  serializeProofDataNeEmpty d t

/-- The structured timeout message is never empty. -/
theorem timeoutMessageNeEmpty (t : Int) : timeoutMessage t ≠ "" := by
  simp only [timeoutMessage]
  repeat apply strAppendNeEmpty
  decide

/-- The structured memory message is never empty. -/
theorem memoryMessageNeEmpty (m : Nat) : memoryMessage m ≠ "" := by
  simp only [memoryMessage]
  repeat apply strAppendNeEmpty
  decide

/-- Tier timeout ceilings are positive. -/
theorem tierTimeoutPos (tier : Tier) : 0 < (TIER_LIMITS tier).timeout := by
  cases tier <;> decide

/-! Claim theorems. -/

/-- Claim C1: for every proof-data tuple, verifying a proof generated over
the same inputs at the same logical timestamp succeeds — verifyProof of a
generateProof over identical data and timestamp returns true, the proof
being a pure function of its inputs. -/
theorem c1_verify_after_generate (d : ProofData) (t : Int) :
    verifyProof (generateProof d t) d t = true := by
  simp [verifyProof]

/-- Claim C3: along the tier order basic < standard < premium, price,
timeout ceiling and memory ceiling are all monotonically non-decreasing. -/
theorem c3_tier_monotone (t1 t2 : Tier) (h : t1.idx ≤ t2.idx) :
    PRICING t1 ≤ PRICING t2 ∧
    (TIER_LIMITS t1).timeout ≤ (TIER_LIMITS t2).timeout ∧
    (TIER_LIMITS t1).memory ≤ (TIER_LIMITS t2).memory := by
  cases t1 <;> cases t2 <;> revert h <;> decide

/-- Witness for C3 at the concrete pair basic ≤ premium. -/
theorem c3_tier_monotone_witness :
    Tier.idx .basic ≤ Tier.idx .premium ∧
    (PRICING .basic ≤ PRICING .premium ∧
      (TIER_LIMITS .basic).timeout ≤ (TIER_LIMITS .premium).timeout ∧
      (TIER_LIMITS .basic).memory ≤ (TIER_LIMITS .premium).memory) :=
  ⟨by decide, c3_tier_monotone .basic .premium (by decide)⟩

/-- Claim C4: the effective timeout never exceeds the tier ceiling; a
caller timeout above the ceiling is clamped to the ceiling; and for any
positive caller timeout the effective timeout is the minimum of the caller
value and the ceiling (the zero/absent caller value is governed by the
falsy-or fallback, claim C10, and still respects the ceiling). -/
theorem c4_timeout_clamped (tier : Tier) (ot : Option Int) :
    effectiveTimeout ot tier ≤ (TIER_LIMITS tier).timeout ∧
    (∀ x, ot = some x → (TIER_LIMITS tier).timeout < x →
      effectiveTimeout ot tier = (TIER_LIMITS tier).timeout) ∧
    (∀ x, ot = some x → 0 < x →
      effectiveTimeout ot tier = min x (TIER_LIMITS tier).timeout) := by
  refine ⟨min_le_right _ _, ?_, ?_⟩
  · rintro x rfl hx
    have hT := tierTimeoutPos tier
    simp only [effectiveTimeout, jsNumOr]
    rw [if_neg (by omega)]
    exact min_eq_right (le_of_lt hx)
  · rintro x rfl hx
    simp only [effectiveTimeout, jsNumOr]
    rw [if_neg (by omega)]

/-- Witness for C4: a caller timeout of 99999 ms on the basic tier is
clamped to the 10000 ms ceiling. -/
theorem c4_timeout_clamped_witness :
    (TIER_LIMITS .basic).timeout < 99999 ∧
    effectiveTimeout (some 99999) .basic = (TIER_LIMITS .basic).timeout ∧
    effectiveTimeout (some 99999) .basic ≤ (TIER_LIMITS .basic).timeout :=
  ⟨by decide,
   (c4_timeout_clamped .basic (some 99999)).2.1 99999 rfl (by decide),
   (c4_timeout_clamped .basic (some 99999)).1⟩

/-- Claim C10: a caller timeout of 0, like an absent one, is folded away by
the falsy-or fallback before the minimum is taken, so the run gets the full
tier ceiling as its effective timeout. -/
theorem c10_zero_timeout_uses_ceiling (tier : Tier) :
    effectiveTimeout (some 0) tier = (TIER_LIMITS tier).timeout ∧
    effectiveTimeout none tier = (TIER_LIMITS tier).timeout := by
  cases tier <;> exact ⟨by decide, by decide⟩

/-- Claim C5: every call into the isolation engine disposes the isolate it
created on every exit path, success and error alike. -/
theorem c5_isolate_always_disposed (t : Int) (mem : Nat) (run : JsOutcome) :
    (executeJavaScript t mem run).isolateDisposed = true := by
  cases run <;> rfl

/-- The failure branch of execute: success false, empty output, tier and
execution id echoed, a non-empty proof, and a non-empty error message. -/
theorem failureResultProps (req : ExecutionRequest) (env : ExecEnv)
    (msg : String) :
    (failureResult req env msg).success = false ∧
    (failureResult req env msg).output = "" ∧
    (failureResult req env msg).tier = req.tier ∧
    (failureResult req env msg).executionId = env.executionId ∧
    (failureResult req env msg).proof ≠ "" ∧
    ∃ e, (failureResult req env msg).error = some e ∧ e ≠ "" := by
  refine ⟨rfl, rfl, rfl, rfl, generateProofNeEmpty _ _, ?_⟩
  by_cases h : msg = ""
  · exact ⟨"Unknown execution error", by simp [failureResult, h], by decide⟩
  · exact ⟨msg, by simp [failureResult, h], h⟩

/-- A python request takes execute's not-yet-implemented failure branch. -/
theorem executePythonEq (c : String) (tier : Tier) (tmo : Option Int)
    (eid : String) (el pt : Int) (run : JsOutcome) :
    execute ⟨c, .python, tier, tmo⟩ ⟨eid, el, pt, run⟩
      = failureResult ⟨c, .python, tier, tmo⟩ ⟨eid, el, pt, run⟩
          "Python execution coming soon. Use JavaScript for now." := by
  simp [execute, ALLOWED_LANGUAGES]

/-- A JavaScript request whose isolated run completes takes execute's
success branch. -/
theorem executeOkEq (c : String) (tier : Tier) (tmo : Option Int)
    (eid : String) (el pt : Int) (out : String) (heap : Nat) :
    execute ⟨c, .javascript, tier, tmo⟩ ⟨eid, el, pt, .ok out heap⟩
      = { success := true
          output := out.trim
          error := none
          executionTime := el
          memoryUsed := heap
          proof := generateProof ⟨c, some out.trim, none, el, eid⟩ pt
          executionId := eid
          tier := tier } := by
  simp [execute, executeJavaScript, ALLOWED_LANGUAGES]

/-- A JavaScript request whose isolated run throws takes execute's failure
branch, with the error remapped by the substring checks of the catch. -/
theorem executeErrEq (c : String) (tier : Tier) (tmo : Option Int)
    (eid : String) (el pt : Int) (msg : String) (heap : Nat) :
    execute ⟨c, .javascript, tier, tmo⟩ ⟨eid, el, pt, .err msg heap⟩
      = failureResult ⟨c, .javascript, tier, tmo⟩ ⟨eid, el, pt, .err msg heap⟩
          (if strContains msg "timeout" then
            timeoutMessage (effectiveTimeout tmo tier)
          else if strContains msg "memory" then
            memoryMessage (TIER_LIMITS tier).memory
          else msg) := by
  simp [execute, executeJavaScript, ALLOWED_LANGUAGES]

/-- Claim C6 as stated is false on the code: the reported memory is not the
final heap statistic on every path.  At the concrete failing run (JavaScript
code whose isolate throws 'boom' with 12345 bytes of heap in use) the result
reports memoryUsed 0, not 12345. -/
theorem c6_counterexample :
    ¬ ∀ (req : ExecutionRequest) (env : ExecEnv),
        (execute req env).memoryUsed = env.run.finalHeap :=
  fun hall => absurd
    (hall ⟨"2+2", .javascript, .basic, none⟩
      ⟨"V1StGXR8IZ5jdHi6", 5, 100, .err "boom" 12345⟩)
    (by decide)

/-- Claim C6 amended: on success the reported memory is the final heap
statistic of the isolate, but on every failure path the result reports
memoryUsed 0 — the error path never reads the heap statistics. -/
theorem c6_memory_reporting (req : ExecutionRequest) (env : ExecEnv) :
    ((execute req env).success = true →
      (execute req env).memoryUsed = env.run.finalHeap) ∧
    ((execute req env).success = false → (execute req env).memoryUsed = 0) := by
  obtain ⟨c, lang, tier, tmo⟩ := req
  obtain ⟨eid, el, pt, run⟩ := env
  cases lang <;> cases run <;>
    simp [execute, executeJavaScript, failureResult, ALLOWED_LANGUAGES,
      JsOutcome.finalHeap]

/-- Witness for the amended C6 at a concrete successful run with 777 bytes
of final heap, and a concrete failing run. -/
theorem c6_memory_reporting_witness :
    ((execute ⟨"1", .javascript, .basic, none⟩
        ⟨"V1StGXR8IZ5jdHi5", 1, 2, .ok "out" 777⟩).success = true ∧
      (execute ⟨"1", .javascript, .basic, none⟩
        ⟨"V1StGXR8IZ5jdHi5", 1, 2, .ok "out" 777⟩).memoryUsed
          = (JsOutcome.ok "out" 777).finalHeap) ∧
    ((execute ⟨"1", .javascript, .basic, none⟩
        ⟨"V1StGXR8IZ5jdHi5", 1, 2, .err "x" 777⟩).success = false ∧
      (execute ⟨"1", .javascript, .basic, none⟩
        ⟨"V1StGXR8IZ5jdHi5", 1, 2, .err "x" 777⟩).memoryUsed = 0) :=
  ⟨⟨by decide,
    (c6_memory_reporting ⟨"1", .javascript, .basic, none⟩
      ⟨"V1StGXR8IZ5jdHi5", 1, 2, .ok "out" 777⟩).1 (by decide)⟩,
   ⟨by decide,
    (c6_memory_reporting ⟨"1", .javascript, .basic, none⟩
      ⟨"V1StGXR8IZ5jdHi5", 1, 2, .err "x" 777⟩).2 (by decide)⟩⟩

/-- Claim C7 as stated is false on the code: a run that fails for a generic
reason surfaces the raw lower-level error text unchanged.  At the concrete
input, a run throwing 'ReferenceError: x is not defined' (containing
neither 'timeout' nor 'memory') surfaces exactly that raw message. -/
theorem c7_counterexample :
    ¬ ∀ (t : Int) (mem usedHeap : Nat) (msg : String),
        ((executeJavaScript t mem (.err msg usedHeap)).outcome).errMsg
          ≠ some msg :=
  fun hall =>
    hall 10000 64 0 "ReferenceError: x is not defined" (by decide)

/-- Claim C7 amended: failures whose underlying message contains 'timeout'
are surfaced as the structured timeout message and those containing
'memory' as the structured memory message — the two are distinguished from
each other — but every other failure surfaces the raw underlying message
unchanged (with the generic fallback only when that message is empty). -/
theorem c7_error_mapping (code : String) (tier : Tier) (tmo : Option Int)
    (eid : String) (el pt : Int) (msg : String) (usedHeap : Nat) :
    (execute ⟨code, .javascript, tier, tmo⟩
        ⟨eid, el, pt, .err msg usedHeap⟩).error
      = some (if strContains msg "timeout" then
            timeoutMessage (effectiveTimeout tmo tier)
          else if strContains msg "memory" then
            memoryMessage (TIER_LIMITS tier).memory
          else if msg = "" then "Unknown execution error" else msg) := by
  simp [execute, executeJavaScript, failureResult, ALLOWED_LANGUAGES]
  by_cases hT : strContains msg "timeout"
  · simp [hT, timeoutMessageNeEmpty]
  · by_cases hM : strContains msg "memory"
    · simp [hT, hM, memoryMessageNeEmpty]
    · by_cases hE : msg = ""
      · subst hE
        simp [hT, hM, show strContains "" "timeout" = false from rfl,
          show strContains "" "memory" = false from rfl]
      · simp [hT, hM, hE]

/-- Claim C9: the executor's public interface is total — for every request
and every behavior of the isolated run, the result echoes the request's
tier, carries the (non-empty) execution identifier and a non-empty proof,
and on failure has an empty output and a non-empty error message. -/
theorem c9_execute_total (req : ExecutionRequest) (env : ExecEnv)
    (h : env.executionId ≠ "") :
    (execute req env).tier = req.tier ∧
    (execute req env).executionId = env.executionId ∧
    (execute req env).executionId ≠ "" ∧
    (execute req env).proof ≠ "" ∧
    ((execute req env).success = false →
      (execute req env).output = "" ∧
      ∃ e, (execute req env).error = some e ∧ e ≠ "") := by
  obtain ⟨c, lang, tier, tmo⟩ := req
  obtain ⟨eid, el, pt, run⟩ := env
  replace h : eid ≠ "" := h
  cases lang with
  | python =>
      rw [executePythonEq]
      obtain ⟨_, h2, h3, h4, h5, h6⟩ := failureResultProps
        ⟨c, .python, tier, tmo⟩ ⟨eid, el, pt, run⟩
        "Python execution coming soon. Use JavaScript for now."
      exact ⟨h3, h4, by rw [h4]; exact h, h5, fun _ => ⟨h2, h6⟩⟩
  | javascript =>
      cases run with
      | ok out heap =>
          rw [executeOkEq]
          exact ⟨rfl, rfl, h, generateProofNeEmpty _ _, fun hf => by simp at hf⟩
      | err msg heap =>
          rw [executeErrEq]
          obtain ⟨_, h2, h3, h4, h5, h6⟩ := failureResultProps
            ⟨c, .javascript, tier, tmo⟩ ⟨eid, el, pt, .err msg heap⟩
            (if strContains msg "timeout" then
              timeoutMessage (effectiveTimeout tmo tier)
            else if strContains msg "memory" then
              memoryMessage (TIER_LIMITS tier).memory
            else msg)
          exact ⟨h3, h4, by rw [h4]; exact h, h5, fun _ => ⟨h2, h6⟩⟩

/-- Witness for C9 at a concrete failing JavaScript request. -/
theorem c9_execute_total_witness :
    ("V1StGXR8IZ5jdHi7" : String) ≠ "" ∧
    ((execute ⟨"console.log(2+2)", .javascript, .basic, none⟩
        ⟨"V1StGXR8IZ5jdHi7", 4, 99, .err "boom" 11⟩).tier = Tier.basic ∧
      (execute ⟨"console.log(2+2)", .javascript, .basic, none⟩
        ⟨"V1StGXR8IZ5jdHi7", 4, 99, .err "boom" 11⟩).executionId
          = "V1StGXR8IZ5jdHi7" ∧
      (execute ⟨"console.log(2+2)", .javascript, .basic, none⟩
        ⟨"V1StGXR8IZ5jdHi7", 4, 99, .err "boom" 11⟩).executionId ≠ "" ∧
      (execute ⟨"console.log(2+2)", .javascript, .basic, none⟩
        ⟨"V1StGXR8IZ5jdHi7", 4, 99, .err "boom" 11⟩).proof ≠ "" ∧
      ((execute ⟨"console.log(2+2)", .javascript, .basic, none⟩
        ⟨"V1StGXR8IZ5jdHi7", 4, 99, .err "boom" 11⟩).success = false →
        (execute ⟨"console.log(2+2)", .javascript, .basic, none⟩
          ⟨"V1StGXR8IZ5jdHi7", 4, 99, .err "boom" 11⟩).output = "" ∧
        ∃ e, (execute ⟨"console.log(2+2)", .javascript, .basic, none⟩
          ⟨"V1StGXR8IZ5jdHi7", 4, 99, .err "boom" 11⟩).error = some e ∧
            e ≠ "")) :=
  ⟨by decide,
   c9_execute_total ⟨"console.log(2+2)", .javascript, .basic, none⟩
     ⟨"V1StGXR8IZ5jdHi7", 4, 99, .err "boom" 11⟩ (by decide)⟩

/-- Claim C2: a POST /api/execute request carrying no payment evidence is
answered with the payment-required challenge quoting the price of the tier
named in the request body and the configured payee address, and the sandbox
executor is never invoked.  The middleware is modelled from the spec (see
requirePaymentChallenge). -/
theorem c2_challenge_quotes_tier (b : RawBody) (env : ExecEnv) (pv : Bool)
    (t : Tier) (s : String)
    (hb : b.tier = some (.str s)) (ht : parseTier s = some t) :
    (postExecute false pv b env).response
      = .paymentRequired
          { maxAmountRequired := PRICING t
            payTo := WALLET_BASE
            asset := USDC_ADDRESS
            network := NETWORK_NAME
            scheme := "eip3009" } ∧
    (postExecute false pv b env).sandboxExecuted = false := by
  constructor
  · simp [postExecute, requirePaymentChallenge, hb, ht]
  · simp [postExecute]

/-- Witness for C2 at the concrete request of the spec's scenario: code
'2+2', tier basic, no payment evidence. -/
theorem c2_challenge_quotes_tier_witness :
    ((⟨some (.str "2+2"), some (.str "javascript"),
        some (.str "basic"), none⟩ : RawBody).tier
      = some (.str "basic") ∧ parseTier "basic" = some .basic) ∧
    ((postExecute false false
        ⟨some (.str "2+2"), some (.str "javascript"),
          some (.str "basic"), none⟩
        ⟨"V1StGXR8IZ5jdHi8", 1, 2, .ok "4" 7⟩).response
      = .paymentRequired
          { maxAmountRequired := PRICING .basic
            payTo := WALLET_BASE
            asset := USDC_ADDRESS
            network := NETWORK_NAME
            scheme := "eip3009" } ∧
      (postExecute false false
        ⟨some (.str "2+2"), some (.str "javascript"),
          some (.str "basic"), none⟩
        ⟨"V1StGXR8IZ5jdHi8", 1, 2, .ok "4" 7⟩).sandboxExecuted = false) :=
  ⟨⟨rfl, by decide⟩,
   c2_challenge_quotes_tier _ ⟨"V1StGXR8IZ5jdHi8", 1, 2, .ok "4" 7⟩ false
     .basic "basic" rfl (by decide)⟩

/-- Membership of a field in the code-field issues: exactly when the code
field violates its contract. -/
theorem memCodeIssues (v : Option JsonVal) (f : ReqField) :
    f ∈ (codeIssues v).map Prod.fst ↔ (f = .code ∧ codeViolated v = true) := by
  cases v with
  | none => simp [codeIssues, codeViolated]
  | some jv =>
    cases jv with
    | str s =>
        simp only [codeIssues, codeViolated]
        split_ifs with h1 h2 h2 <;> simp_all
    | num n => simp [codeIssues, codeViolated]
    | other => simp [codeIssues, codeViolated]

/-- Membership of a field in the language-field issues: exactly when the
language field violates its contract. -/
theorem memLangIssues (v : Option JsonVal) (f : ReqField) :
    f ∈ (langIssues v).map Prod.fst ↔
      (f = .language ∧ langViolated v = true) := by
  cases v with
  | none => simp [langIssues, langViolated]
  | some jv =>
    cases jv with
    | str s =>
        simp only [langIssues, langViolated]
        split_ifs with h1 <;> simp_all [Option.isNone_iff_eq_none,
          Option.isSome_iff_ne_none]
    | num n => simp [langIssues, langViolated]
    | other => simp [langIssues, langViolated]

/-- Membership of a field in the tier-field issues: exactly when the tier
field violates its contract. -/
theorem memTierIssues (v : Option JsonVal) (f : ReqField) :
    f ∈ (tierIssues v).map Prod.fst ↔ (f = .tier ∧ tierViolated v = true) := by
  cases v with
  | none => simp [tierIssues, tierViolated]
  | some jv =>
    cases jv with
    | str s =>
        simp only [tierIssues, tierViolated]
        split_ifs with h1 <;> simp_all [Option.isNone_iff_eq_none,
          Option.isSome_iff_ne_none]
    | num n => simp [tierIssues, tierViolated]
    | other => simp [tierIssues, tierViolated]

/-- Membership of a field in the timeout-field issues: exactly when the
timeout field violates its contract. -/
theorem memTimeoutIssues (v : Option JsonVal) (f : ReqField) :
    f ∈ (timeoutIssues v).map Prod.fst ↔
      (f = .timeout ∧ timeoutViolated v = true) := by
  cases v with
  | none => simp [timeoutIssues, timeoutViolated]
  | some jv => cases jv <;> simp [timeoutIssues, timeoutViolated]

/-- A field appears among the collected validation issues exactly when it
violates its contract. -/
theorem memValidationIssues (b : RawBody) (f : ReqField) :
    f ∈ (validationIssues b).map Prod.fst ↔ fieldViolated f b = true := by
  simp only [validationIssues, List.map_append, List.mem_append,
    memCodeIssues, memLangIssues, memTierIssues, memTimeoutIssues]
  cases f <;> simp [fieldViolated]

/-- If the body parses successfully, no field violates its contract. -/
theorem parseSomeNoViolation (b : RawBody) (req : ExecutionRequest)
    (h : parseExecuteRequest b = some req) (f : ReqField) :
    fieldViolated f b = false := by
  obtain ⟨vc, vl, vt, vto⟩ := b
  simp only [parseExecuteRequest] at h
  split at h
  · next c l t tmo =>
    split at h
    · simp at h
    · next hlen =>
      split at h
      · next lang tier hl ht =>
        cases f <;>
          simp_all [fieldViolated, codeViolated, langViolated, tierViolated,
            timeoutViolated]
      · next lang tier n hl ht =>
        cases f <;>
          simp_all [fieldViolated, codeViolated, langViolated, tierViolated,
            timeoutViolated]
      · simp at h
  · simp at h

/-- Claim C8: for every invalid request body, the 400 validation response
carries the full issue list, and every violated field — not only the first
one found — appears in it. -/
theorem c8_every_violation_listed (b : RawBody) (env : ExecEnv)
    (f : ReqField) (h : fieldViolated f b = true) :
    (postExecute true true b env).response
      = .badRequest (validationIssues b) ∧
    f ∈ (validationIssues b).map Prod.fst := by
  have hp : parseExecuteRequest b = none := by
    cases hq : parseExecuteRequest b with
    | none => rfl
    | some req =>
        have := parseSomeNoViolation b req hq f
        simp_all
  exact ⟨by simp [postExecute, hp], (memValidationIssues b f).2 h⟩

/-- Witness for C8 at a body violating two fields at once (empty code and
unknown language): both fields appear in the issue list. -/
theorem c8_every_violation_listed_witness :
    (fieldViolated .code
        ⟨some (.str ""), some (.str "ruby"), some (.str "basic"), none⟩
      = true ∧
     fieldViolated .language
        ⟨some (.str ""), some (.str "ruby"), some (.str "basic"), none⟩
      = true) ∧
    ReqField.code ∈ (validationIssues
        ⟨some (.str ""), some (.str "ruby"), some (.str "basic"), none⟩).map
          Prod.fst ∧
    ReqField.language ∈ (validationIssues
        ⟨some (.str ""), some (.str "ruby"), some (.str "basic"), none⟩).map
          Prod.fst ∧
    (postExecute true true
        ⟨some (.str ""), some (.str "ruby"), some (.str "basic"), none⟩
        ⟨"V1StGXR8IZ5jdHi9", 1, 2, .ok "4" 7⟩).response
      = .badRequest (validationIssues
          ⟨some (.str ""), some (.str "ruby"), some (.str "basic"), none⟩) :=
  ⟨⟨by decide, by decide⟩,
   (c8_every_violation_listed _ ⟨"V1StGXR8IZ5jdHi9", 1, 2, .ok "4" 7⟩
     .code (by decide)).2,
   (c8_every_violation_listed _ ⟨"V1StGXR8IZ5jdHi9", 1, 2, .ok "4" 7⟩
     .language (by decide)).2,
   (c8_every_violation_listed _ ⟨"V1StGXR8IZ5jdHi9", 1, 2, .ok "4" 7⟩
     .code (by decide)).1⟩

end LucidSandbox
